import Mathlib

/-!
Verification of the napari excerpt: plugin I/O dispatch (napari/plugins/io.py),
declarative menu population (napari/_qt/menus/_util.py), the vispy points
adapter (napari/_vispy/layers/points.py) and the points mouse-binding
behaviour.  Python values, the plugin-manager environment and the npe2 engine
are modelled shallowly; each function under test is translated from the
source.
-/

/-- A shallow model of the Python values that flow through the I/O dispatch
code: `None`, booleans, integers, strings, lists and tuples. -/
inductive PyVal where
  | none
  | bool (b : Bool)
  | int (n : Int)
  | str (s : String)
  | list (xs : List PyVal)
  | tuple (xs : List PyVal)

/-- Python truthiness for the modelled values. -/
def pyTruthy : PyVal → Bool
  | .none => false
  | .bool b => b
  | .int n => n != 0
  | .str s => s != ""
  | .list xs => !xs.isEmpty
  | .tuple xs => !xs.isEmpty

/-- `isinstance(x, list)`. -/
def isPyList : PyVal → Bool
  | .list _ => true
  | _ => false

/-- `isinstance(x, tuple)`. -/
def isPyTuple : PyVal → Bool
  | .tuple _ => true
  | _ => false

/-- `x is None`. -/
def isPyNone : PyVal → Bool
  | .none => true
  | _ => false

/-- `len(x)` for the modelled containers. -/
def pyLen : PyVal → Nat
  | .list xs => xs.length
  | .tuple xs => xs.length
  | .str s => s.length
  | _ => 0

/-- Container indexing `x[i]` (only used under the length guards of the
sentinel check). -/
def pyItem : PyVal → Nat → PyVal
  | .list xs, i => xs.getD i .none
  | .tuple xs, i => xs.getD i .none
  | _, _ => .none

/-- Translation of `napari.plugins.io._is_null_layer_sentinel`: layer data
indicates an empty file exactly when it is `[(None,)]`. -/
def _is_null_layer_sentinel (layer_data : PyVal) : Bool :=
  isPyList layer_data
    && pyLen layer_data == 1
    && isPyTuple (pyItem layer_data 0)
    && pyLen (pyItem layer_data 0) == 1
    && isPyNone (pyItem (pyItem layer_data 0) 0)

/-- Index of the last occurrence of `c`, accumulator form; `-1` when absent
(matching `str.rfind`). -/
def rfindAux (c : Char) : List Char → Nat → Int → Int
  | [], _, acc => acc
  | x :: xs, i, acc => rfindAux c xs (i + 1) (if x = c then (i : Int) else acc)

/-- `p.rfind(c)` on a character list. -/
def strRFind (c : Char) (p : List Char) : Int :=
  rfindAux c p 0 (-1)

/-- Translation of `posixpath.splitext` (the generic `os.path.splitext`
algorithm): split off the extension at the last dot that lies after the last
path separator, unless the basename consists only of leading dots up to that
dot. -/
def splitextChars (p : List Char) : List Char × List Char :=
  let sepIndex := strRFind '/' p
  let dotIndex := strRFind '.' p
  if sepIndex < dotIndex then
    let startIdx := (sepIndex + 1).toNat
    let dotNat := dotIndex.toNat
    if ((p.drop startIdx).take (dotNat - startIdx)).any (fun ch => ch != '.') then
      (p.take dotNat, p.drop dotNat)
    else (p, [])
  else (p, [])

/-- `os.path.splitext` on strings. -/
def splitext (p : String) : String × String :=
  let r := splitextChars p.toList
  (String.mk r.1, String.mk r.2)

/-- The distinct error messages produced by the dispatch code (the text is
irrelevant to the claims; only which message is chosen matters). -/
inductive PyMsg where
  | noPluginNamed (plugin : String)
  | pluginCannotRead (plugin : String)
  | noReaderFound (isMulti : Bool)
  | noWriterPluginNamed (plugin : String)
  | cannotWriteForced (plugin : String)
  | cannotWriteAny

/-- A Python exception, as far as the dispatch code inspects it.  Reader and
writer plugin failures of unknown shape are `otherExc`; the plugin engine
wraps them as `pluginCallError` with the original exception as cause. -/
inductive PyExc where
  | valueError (m : PyMsg)
  | otherExc (code : Nat)
  | pluginCallError (implName : Option String) (cause : PyExc)

/-- A `napari_get_reader` hook implementation of the first-generation plugin
engine, identified by its plugin name.  `reader` is the value the hook
returns for the path under consideration: `Option.none` when the hook
declines the path (returns a falsy value), otherwise the outcome of calling
the returned reader on the path (`.ok` layer data or `.error` for a raised
exception). -/
structure FGImpl where
  name : String
  reader : Option (Except PyExc PyVal)

/-- The mutable state of the unforced fallback loop in
`read_data_with_plugins`: accumulated `PluginCallError`s (implementation name
and cause), the `skip_impls` list, the last value assigned to `layer_data`,
the winning implementation, and the trace of reader invocations (in order of
invocation). -/
structure FGState where
  errors : List (String × PyExc)
  skip : List String
  layerData : Option PyVal
  hookimpl : Option String
  trace : List String

/-- The loop's initial state (`errors = []`, `skip_impls = []`,
`layer_data = None`, `hookimpl = None`). -/
def initFG : FGState :=
  ⟨[], [], Option.none, Option.none, []⟩

/-- `hook_caller.call_with_result_obj(path=path, _skip_impls=skip)` for the
firstresult hook `napari_get_reader` (semantics of the external
`napari_plugin_engine`): call the non-skipped implementations in hook-caller
order and return the first one whose hook yields a reader, together with the
outcome of that reader on the path; `Option.none` when every remaining
implementation declines. -/
def findImpl : List FGImpl → List String → Option (String × Except PyExc PyVal)
  | [], _ => Option.none
  | impl :: rest, skip =>
    if impl.name ∈ skip then findImpl rest skip
    else
      match impl.reader with
      | some r => some (impl.name, r)
      | Option.none => findImpl rest skip

/-- Translation of the `while True` fallback loop of
`read_data_with_plugins` (io.py lines 126-145), fuelled: each iteration asks
the hook caller for the first non-skipped reader; a raised reader exception
is wrapped as a `PluginCallError`, appended to `errors`, and its
implementation appended to `skip_impls`; a falsy read appends to
`skip_impls` only; a truthy read records the implementation and breaks. -/
def fgLoopGo (impls : List FGImpl) : Nat → FGState → FGState
  | 0, s => s
  | fuel + 1, s =>
    match findImpl impls s.skip with
    | Option.none => s
    | some (n, .ok ld) =>
      if pyTruthy ld then
        { s with trace := s.trace ++ [n], layerData := some ld, hookimpl := some n }
      else
        fgLoopGo impls fuel
          { s with trace := s.trace ++ [n], layerData := some ld, skip := s.skip ++ [n] }
    | some (n, .error e) =>
      fgLoopGo impls fuel
        { s with trace := s.trace ++ [n], errors := s.errors ++ [(n, e)],
                 skip := s.skip ++ [n] }

/-- The fallback loop run from the initial state.  Each iteration that does
not break appends a fresh implementation to `skip_impls`, so
`impls.length + 1` rounds of fuel always suffice. -/
def fgLoop (impls : List FGImpl) : FGState :=
  fgLoopGo impls (impls.length + 1) initFG

/-- Specification-side description of the same loop, following the claim's
words: candidate implementations are tried sequentially in hook-caller
order; an implementation that declines contributes nothing; a raising reader
has its failure wrapped and appended to `errors` and the implementation
appended to `skip_impls`; the scan stops at the first truthy layer data. -/
def fgScanGo : List FGImpl → FGState → FGState
  | [], s => s
  | impl :: rest, s =>
    match impl.reader with
    | Option.none => fgScanGo rest s
    | some (.ok ld) =>
      if pyTruthy ld then
        { s with trace := s.trace ++ [impl.name], layerData := some ld,
                 hookimpl := some impl.name }
      else
        fgScanGo rest
          { s with trace := s.trace ++ [impl.name], layerData := some ld,
                   skip := s.skip ++ [impl.name] }
    | some (.error e) =>
      fgScanGo rest
        { s with trace := s.trace ++ [impl.name],
                 errors := s.errors ++ [(impl.name, e)],
                 skip := s.skip ++ [impl.name] }

/-- The specification-side sequential scan from the initial state. -/
def fgScan (impls : List FGImpl) : FGState :=
  fgScanGo impls initFG

/-- The implementations still eligible for the hook caller: those whose name
is not in `skip_impls`. -/
def activeImpls (impls : List FGImpl) (skip : List String) : List FGImpl :=
  impls.filter (fun i => decide (¬ i.name ∈ skip))

/-- The first implementation of a list that offers a reader, with the
outcome of that reader. -/
def firstActive : List FGImpl → Option (String × Except PyExc PyVal)
  | [] => Option.none
  | impl :: rest =>
    match impl.reader with
    | some r => some (impl.name, r)
    | Option.none => firstActive rest

/-- The observable interactions of the dispatch code with the two plugin
engines: an npe2 attempt, an extension-to-plugin lookup in the
first-generation plugin manager, and the first-generation hook invocations. -/
inductive IOEvent where
  | npe2Read
  | extReaderLookup (ext : String)
  | fgReaderHookLoop
  | fgReaderForced (plugin : String)
  | fgReaderCall (implName : String)
  | npe2Write
  | extWriterLookup (ext : String)
  | fgWriterHook

/-- Whether an event is a consultation of the first-generation plugin
engine's hooks. -/
def isFirstGenEvent : IOEvent → Bool
  | .fgReaderHookLoop => true
  | .fgReaderForced _ => true
  | .fgReaderCall _ => true
  | .fgWriterHook => true
  | _ => false

/-- The `path` argument of `read_data_with_plugins`: a single string (or
`pathlib.Path`) or a list of strings. -/
inductive PathArg where
  | single (s : String)
  | multi (ps : List String)

/-- `isinstance(path, (tuple, list))`. -/
def isMultiPath : PathArg → Bool
  | .single _ => false
  | .multi _ => true

/-- Outcome of `_read_with_npe2`'s interaction with npe2: the import fails,
`read_get_reader` raises `ValueError`, `read_get_reader` raises some other
exception, or it returns layer data together with the reader's plugin name. -/
inductive NPE2ReadOutcome where
  | importErr
  | valueErr
  | raises (e : PyExc)
  | okRead (ld : PyVal) (pluginName : String)

/-- Outcome of `hook_caller._call_plugin(plugin, path=path)` followed by a
call of the returned reader: the hook call raises, the returned value is not
callable (including `None`), or the reader runs with the given outcome. -/
inductive CallPluginRes where
  | raises (e : PyExc)
  | notCallable
  | callableReader (res : Except PyExc PyVal)

/-- The external world `read_data_with_plugins` interacts with: the npe2
engine, `abspath_or_url` (napari.utils.misc, not part of the excerpt,
modelled as an arbitrary per-string normalization), and the first-generation
plugin manager (the external `napari_plugin_engine` package): its
extension-to-reader assignments, registered plugin names, the
`napari_get_reader` hook implementations in hook-caller order, and the
behaviour of a forced `_call_plugin`. -/
structure ReadEnv where
  npe2 : NPE2ReadOutcome
  abspath : String → String
  readerForExtension : String → Option String
  plugins : List String
  hookImpls : List FGImpl
  callPlugin : String → CallPluginRes

/-- `abspath_or_url` applied to the path argument, elementwise on lists. -/
def absPathArg (env : ReadEnv) : PathArg → PathArg
  | .single s => .single (env.abspath s)
  | .multi ps => .multi (ps.map env.abspath)

/-- Translation of `_read_with_npe2` (io.py lines 23-38): `None` when npe2
is missing or its reader resolution raises `ValueError`; otherwise the layer
data and a hook-implementation stub carrying the reader's plugin name. -/
def _read_with_npe2 (env : ReadEnv) : Except PyExc (Option (PyVal × String)) :=
  match env.npe2 with
  | .importErr => .ok Option.none
  | .valueErr => .ok Option.none
  | .raises e => .error e
  | .okRead ld name => .ok (some (ld, name))

/-- The result of `read_data_with_plugins`: either a raised exception, or a
pair of optional layer data (Python `None` modelled as `Option.none`) and
the optional hook implementation that produced it (by plugin name). -/
abbrev ReadResult := Except PyExc (Option PyVal × Option String)

/-- io.py lines 87-89: when no plugin is forced and the path is a single
string, look up the plugin assigned to the path's extension
(`os.path.splitext(path)[-1]` fed to
`plugin_manager.get_reader_for_extension`); also reports the lookup event. -/
def resolveReadPlugin (env : ReadEnv) (path : PathArg) (plugin : Option String) :
    Option String × List IOEvent :=
  match plugin, path with
  | Option.none, .single s =>
    let ext := (splitext s).2
    (env.readerForExtension ext, [.extReaderLookup ext])
  | _, _ => (plugin, [])

/-- io.py lines 92-121, the forced-plugin branch: unknown plugin names raise
`ValueError`; a non-callable hook result raises `ValueError`; a sentinel
read returns `[]`; otherwise `layer_data or None` is returned with the
plugin's implementation. -/
def forcedReadBranch (env : ReadEnv) (p : String) : ReadResult × List IOEvent :=
  if p ∈ env.plugins then
    match env.callPlugin p with
    | .raises e => (.error e, [.fgReaderForced p])
    | .notCallable =>
      (.error (.valueError (.pluginCannotRead p)), [.fgReaderForced p])
    | .callableReader res =>
      match res with
      | .error e => (.error e, [.fgReaderForced p])
      | .ok layer_data =>
        if _is_null_layer_sentinel layer_data then
          (.ok (some (PyVal.list []), some p), [.fgReaderForced p])
        else
          (.ok ((if pyTruthy layer_data then some layer_data else Option.none),
                some p),
           [.fgReaderForced p])
  else (.error (.valueError (.noPluginNamed p)), [])

/-- Python falsiness of an optional value (`None` or a falsy value). -/
def pyFalsyOpt : Option PyVal → Bool
  | Option.none => true
  | some v => !pyTruthy v

/-- io.py lines 123-177, the unforced branch: run the fallback loop; if
`layer_data` ends falsy, raise `ValueError` with the message distinguishing
list paths from single paths; otherwise convert a sentinel to `[]` and
return `layer_data or None` with the winning implementation. -/
def loopReadBranch (env : ReadEnv) (path1 : PathArg) : ReadResult × List IOEvent :=
  let final := fgLoop env.hookImpls
  let evs := IOEvent.fgReaderHookLoop :: final.trace.map IOEvent.fgReaderCall
  if pyFalsyOpt final.layerData then
    (.error (.valueError (.noReaderFound (isMultiPath path1))), evs)
  else
    let v := final.layerData.getD PyVal.none
    (.ok ((if _is_null_layer_sentinel v then some (PyVal.list [])
           else if pyTruthy v then some v else Option.none),
          final.hookimpl),
     evs)

/-- Translation of `read_data_with_plugins` (io.py lines 41-177): try npe2
first and return its result at once when it yields one; otherwise normalize
the path, resolve an extension-assigned plugin when none was forced, and
either run the forced-plugin branch or the fallback loop. -/
def read_data_with_plugins (env : ReadEnv) (path : PathArg)
    (plugin : Option String) : ReadResult × List IOEvent :=
  match _read_with_npe2 env with
  | .error e => (.error e, [.npe2Read])
  | .ok (some (ld, name)) =>
    (.ok (some (if _is_null_layer_sentinel ld then PyVal.list [] else ld),
          some name),
     [.npe2Read])
  | .ok Option.none =>
    let path1 := absPathArg env path
    let rp := resolveReadPlugin env path1 plugin
    let branch :=
      match rp.1 with
      | some p => forcedReadBranch env p
      | Option.none => loopReadBranch env path1
    (branch.1, .npe2Read :: (rp.2 ++ branch.2))

/-- The value returned by `writer.exec` in `_write_layers_with_npe2`: a
single path string, a list of paths, or `None`. -/
inductive NpeExecRes where
  | strRes (s : String)
  | listRes (l : List String)
  | noneRes

/-- An npe2 `WriterContribution` as `_write_layers_with_npe2` consumes it:
`nMax` is the sum of `ltc.max()` over its layer-type constraints, and `exec`
is the outcome of `writer.exec` as a function of which argument shape was
used (`true` for the single-layer shape chosen when `n <= 1`). -/
structure NpeWriter where
  nMax : Nat
  exec : Bool → NpeExecRes

/-- A napari layer, as far as the writing dispatch inspects it: its
`_type_string` selects the `napari_write_<type>` hook. -/
structure Layer where
  typeString : String

/-- The external world of the writing dispatch: npe2 importability and the
result of `npe2.write`, `abspath_or_url`, the first-generation plugin
manager's extension-to-writer assignments and registered plugin names, the
`napari_get_writer` results for a forced plugin and for the unforced loop,
and the `napari_write_<type>` hook callers keyed by layer type. -/
structure WriteEnv where
  npe2Importable : Bool
  npe2Write : Option String → List String
  writerForExtension : String → Option String
  plugins : List String
  forcedWriter : String → Option (Except PyExc (List String))
  looseWriter : Option (Except PyExc (List String)) × Option String
  singleHook : String → Option String → Except PyExc (Option String)

/-- Translation of `_write_layers_with_npe2` (io.py lines 285-329): an empty
list when npe2 is not importable; `npe2.write` when no writer contribution
is forced; otherwise `writer.exec` with the argument shape chosen by the
layer-type constraints, a string result wrapped in a list and a `None`
result becoming the empty list. -/
def _write_layers_with_npe2 (env : WriteEnv) (plugin_name : Option String)
    (writer : Option NpeWriter) : List String :=
  if env.npe2Importable then
    match writer with
    | Option.none => env.npe2Write plugin_name
    | some w =>
      match w.exec (decide (w.nMax ≤ 1)) with
      | .strRes s => [s]
      | .listRes l => l
      | .noneRes => []
  else []

/-- io.py lines 382-384 and 487-489: when no plugin name is supplied, the
writer plugin is looked up from `os.path.splitext(path)[-1]` via
`plugin_manager.get_writer_for_extension`; also reports the lookup event. -/
def resolveWritePlugin (env : WriteEnv) (path : String)
    (plugin_name : Option String) : Option String × List IOEvent :=
  match plugin_name with
  | Option.none =>
    let ext := (splitext path).2
    (env.writerForExtension ext, [.extWriterLookup ext])
  | some p => (some p, [])

/-- io.py lines 413-433, shared tail of the multi-layer writer branch: a
non-callable `writer_function` raises `ValueError` (with the message chosen
by whether a plugin was forced); otherwise the writer is called and a raised
exception is wrapped as a `PluginCallError` naming the implementation. -/
def writeCallTail (wf : Option (Except PyExc (List String)))
    (implName : Option String) (forcedName : Option String) :
    Except PyExc (List String) :=
  match wf with
  | Option.none =>
    .error (.valueError
      (match forcedName with
       | some p => .cannotWriteForced p
       | Option.none => .cannotWriteAny))
  | some r =>
    match r with
    | .ok paths => .ok paths
    | .error e => .error (.pluginCallError implName e)

/-- Translation of `_write_multiple_layers_with_plugins` (io.py lines
332-433): try npe2 first and return its non-empty result; otherwise resolve
an extension-assigned writer plugin when none was forced, then either call
`napari_get_writer` on the forced plugin (raising `ValueError` for unknown
names) or run the unforced hook loop, and finish with the shared writer-call
tail. -/
def _write_multiple_layers_with_plugins (env : WriteEnv) (path : String)
    (layers : List Layer) (plugin_name : Option String)
    (writer : Option NpeWriter) : Except PyExc (List String) × List IOEvent :=
  let written_paths := _write_layers_with_npe2 env plugin_name writer
  if !written_paths.isEmpty then (.ok written_paths, [.npe2Write])
  else
    let _layer_types := layers.map (fun l => l.typeString)
    let rp := resolveWritePlugin env path plugin_name
    let res : Except PyExc (List String) × List IOEvent :=
      match rp.1 with
      | some p =>
        if p ∈ env.plugins then
          (writeCallTail (env.forcedWriter p) (some p) rp.1, [IOEvent.fgWriterHook])
        else
          (.error (.valueError (.noWriterPluginNamed p)), [])
      | Option.none =>
        (writeCallTail env.looseWriter.1 env.looseWriter.2 Option.none,
         [IOEvent.fgWriterHook])
    (res.1, .npe2Write :: (rp.2 ++ res.2))

/-- Translation of `_write_single_layer_with_plugins` (io.py lines 436-508):
try npe2 first and return the first written path when the npe2 attempt wrote
anything; otherwise resolve an extension-assigned writer plugin when none
was forced, raise `ValueError` for unknown forced names, and call the
`napari_write_<layer._type_string>` hook caller. -/
def _write_single_layer_with_plugins (env : WriteEnv) (path : String)
    (layer : Layer) (plugin_name : Option String) (writer : Option NpeWriter) :
    Except PyExc (Option String) × List IOEvent :=
  match _write_layers_with_npe2 env plugin_name writer with
  | w0 :: _ => (.ok (some w0), [.npe2Write])
  | [] =>
    let rp := resolveWritePlugin env path plugin_name
    let res : Except PyExc (Option String) × List IOEvent :=
      match rp.1 with
      | some p =>
        if p ∈ env.plugins then
          (env.singleHook layer.typeString rp.1, [IOEvent.fgWriterHook])
        else
          (.error (.valueError (.noWriterPluginNamed p)), [])
      | Option.none =>
        (env.singleHook layer.typeString Option.none, [IOEvent.fgWriterHook])
    (res.1, .npe2Write :: (rp.2 ++ res.2))

/-- Translation of `save_layers` (io.py lines 180-259): dispatch on the
number of layers (multi-layer writer, single-layer writer with its optional
path collected into a list by Python truthiness, or nothing at all for an
empty layer list); the boolean in the result records whether the
`'No data written!'` warning was emitted, which the code does exactly when
the written list is empty. -/
def save_layers (env : WriteEnv) (path : String) (layers : List Layer)
    (plugin : Option String) (writer : Option NpeWriter) :
    Except PyExc (List String × Bool) × List IOEvent :=
  let wr : Except PyExc (List String) × List IOEvent :=
    match layers with
    | l1 :: l2 :: rest =>
      _write_multiple_layers_with_plugins env path (l1 :: l2 :: rest) plugin writer
    | [l] =>
      let r := _write_single_layer_with_plugins env path l plugin writer
      (r.1.map (fun w =>
        match w with
        | some s => if s == "" then [] else [s]
        | Option.none => []), r.2)
    | [] => (.ok [], [])
  match wr.1 with
  | .error e => (.error e, wr.2)
  | .ok written => (.ok (written, written.isEmpty), wr.2)

/-- The value under a `'menu'` key in a declarative menu entry: an existing
`QMenu` object (identified by reference id) or a title string. -/
inductive SubVal where
  | qmenuRef (id : Nat)
  | title (s : String)

/-- A declarative menu entry dict as `populate_menu` consumes it.  Each
optional key is an `Option` field (`Option.none` meaning the key is absent);
the `'items'` key, whose value is itself a list of entries, is encoded by a
presence flag together with the list (absent keys carry `[]`).  Callables
(`slot`, `check_on`) and `menuRole` values are opaque identifiers. -/
inductive MenuItemDict where
  | mk (whenK : Option PyVal) (menuK : Option SubVal)
       (itemsPresent : Bool) (items : List MenuItemDict)
       (textK : Option String) (slotK : Option Nat)
       (shortcutK : Option String) (statusTipK : Option String)
       (menuRoleK : Option Nat) (checkableK : Option PyVal)
       (checkedK : Option PyVal) (checkOnK : Option Nat)

/-- Python truthiness of the entry dict: non-empty means some key is
present. -/
def MenuItemDict.nonempty : MenuItemDict → Bool
  | .mk whenK menuK itemsP _ textK slotK shortcutK statusTipK menuRoleK
       checkableK checkedK checkOnK =>
    whenK.isSome || menuK.isSome || itemsP || textK.isSome || slotK.isSome
      || shortcutK.isSome || statusTipK.isSome || menuRoleK.isSome
      || checkableK.isSome || checkedK.isSome || checkOnK.isSome

/-- `ax.get("when", True)` evaluated for falsiness: `true` exactly when the
`'when'` key is present with a falsy value. -/
def MenuItemDict.whenFalsy : MenuItemDict → Bool
  | .mk whenK _ _ _ _ _ _ _ _ _ _ _ =>
    match whenK with
    | some w => !pyTruthy w
    | Option.none => false

/-- The `'menu'` key. -/
def MenuItemDict.menuKey : MenuItemDict → Option SubVal
  | .mk _ menuK _ _ _ _ _ _ _ _ _ _ => menuK

/-- `ax.get("items", [])`. -/
def MenuItemDict.itemsKey : MenuItemDict → List MenuItemDict
  | .mk _ _ itemsP items _ _ _ _ _ _ _ _ => if itemsP then items else []

/-- The `'text'` key. -/
def MenuItemDict.textKey : MenuItemDict → Option String
  | .mk _ _ _ _ textK _ _ _ _ _ _ _ => textK

/-- The `'slot'` key. -/
def MenuItemDict.slotKey : MenuItemDict → Option Nat
  | .mk _ _ _ _ _ s _ _ _ _ _ _ => s

/-- The `'shortcut'` key. -/
def MenuItemDict.shortcutKey : MenuItemDict → Option String
  | .mk _ _ _ _ _ _ sc _ _ _ _ _ => sc

/-- The `'statusTip'` key. -/
def MenuItemDict.statusTipKey : MenuItemDict → Option String
  | .mk _ _ _ _ _ _ _ st _ _ _ _ => st

/-- The `'menuRole'` key. -/
def MenuItemDict.menuRoleKey : MenuItemDict → Option Nat
  | .mk _ _ _ _ _ _ _ _ mr _ _ _ => mr

/-- The `'checkable'` key. -/
def MenuItemDict.checkableKey : MenuItemDict → Option PyVal
  | .mk _ _ _ _ _ _ _ _ _ ca _ _ => ca

/-- The `'checked'` key. -/
def MenuItemDict.checkedKey : MenuItemDict → Option PyVal
  | .mk _ _ _ _ _ _ _ _ _ _ ck _ => ck

/-- The `'check_on'` key. -/
def MenuItemDict.checkOnKey : MenuItemDict → Option Nat
  | .mk _ _ _ _ _ _ _ _ _ _ _ co => co

/-- A `QAction` as configured by `populate_menu`: the settings the code
applies to the created action, plus the entry stored via `setData`. -/
structure ActionNode where
  text : String
  slotConnected : Option Nat
  shortcut : String
  statusTip : String
  menuRole : Option Nat
  checkableSet : Bool
  checkedSet : Option Bool
  checkOnConnected : Option Nat
  dataStored : MenuItemDict

/-- What `populate_menu` adds to a `QMenu`: separators, submenus (reused
`QMenu` objects or freshly created ones) with their own children, and
configured actions. -/
inductive MenuNode where
  | separator
  | submenuReused (id : Nat) (children : List MenuNode)
  | submenuNew (title : String) (children : List MenuNode)
  | action (a : ActionNode)

/-- Attach a submenu: reuse a `QMenu` value or create one from a string
(io of `menu.addMenu`). -/
def attachSub : SubVal → List MenuNode → MenuNode
  | .qmenuRef i, ch => .submenuReused i ch
  | .title s, ch => .submenuNew s ch

/-- The `QAction` configuration performed on the non-menu branch of
`populate_menu` (lines 88-105): connect `slot` when present, always set
shortcut and status tip with `''` defaults, set the menu role when present,
and when `checkable` is truthy set checkable, set checked from
`ax.get("checked", False)` and connect `check_on` when present. -/
def mkActionNode (ax : MenuItemDict) (t : String) (slotK : Option Nat)
    (shortcutK statusTipK : Option String) (menuRoleK : Option Nat)
    (checkableK checkedK : Option PyVal) (checkOnK : Option Nat) : ActionNode :=
  let checkable := pyTruthy (checkableK.getD (PyVal.bool false))
  { text := t
    slotConnected := slotK
    shortcut := shortcutK.getD ""
    statusTip := statusTipK.getD ""
    menuRole := menuRoleK
    checkableSet := checkable
    checkedSet := if checkable then some (pyTruthy (checkedK.getD (PyVal.bool false)))
                  else Option.none
    checkOnConnected := if checkable then checkOnK else Option.none
    dataStored := ax }

mutual

/-- Translation of the body of the `for ax in actions` loop of
`populate_menu` (_util.py lines 73-105) for one entry: a falsy entry adds a
separator; an entry whose `'when'` value is falsy contributes nothing; an
entry with a `'menu'` key attaches a submenu populated from its `'items'`
key (default `[]`); otherwise a single action is added, titled by the
`'text'` key (whose absence raises `KeyError`, the `.error` case). -/
def populateItem : MenuItemDict → Except Unit (List MenuNode)
  | ax@(.mk whenK menuK itemsP items textK slotK shortcutK statusTipK
            menuRoleK checkableK checkedK checkOnK) =>
    if ax.nonempty = false then .ok [.separator]
    else if (match whenK with
             | some w => !pyTruthy w
             | Option.none => false) then .ok []
    else
      match menuK with
      | some sub => do
        let children ← populate_menu (if itemsP then items else [])
        .ok [attachSub sub children]
      | Option.none =>
        match textK with
        | Option.none => .error ()
        | some t =>
          .ok [.action (mkActionNode ax t slotK shortcutK statusTipK menuRoleK
                          checkableK checkedK checkOnK)]
termination_by ax => sizeOf ax
decreasing_by
  simp_wf
  split <;> simp_arith

/-- Translation of `populate_menu` (_util.py lines 37-105): process the
declarative action list elementwise, concatenating the contributions. -/
def populate_menu : List MenuItemDict → Except Unit (List MenuNode)
  | [] => .ok []
  | a :: rest => do
    let h ← populateItem a
    let t ← populate_menu rest
    .ok (h ++ t)
termination_by l => sizeOf l
decreasing_by
  all_goals simp_wf
  all_goals omega

end

/-- The slice of a `Points` layer that
`VispyPointsLayer._on_data_change` reads: `_indices_view`, `_ndisplay`,
`_view_data` (one row per displayed point), `_view_size`,
`_view_edge_color`, `_view_face_color`, `edge_width` and `symbol`.
Numeric entries are modelled as rationals. -/
structure PointsLayerView where
  indicesView : List Nat
  ndisplay : Nat
  viewData : List (List ℚ)
  viewSize : List ℚ
  viewEdgeColor : List (List ℚ)
  viewFaceColor : List (List ℚ)
  edgeWidth : ℚ
  symbol : String

/-- The argument bundle passed to
`self.node._subvisuals[0].set_data` by `_on_data_change`. -/
structure SetDataArgs where
  data : List (List ℚ)
  size : List ℚ
  edgeWidth : ℚ
  symbol : String
  edgeColor : List (List ℚ)
  faceColor : List (List ℚ)
  scaling : Bool

/-- Translation of `VispyPointsLayer._on_data_change` (points.py lines
35-63): with an empty `_indices_view` the visual receives a single all-zero
coordinate of dimension `_ndisplay`, size `[0]`, opaque black edge color and
opaque white face color; otherwise `_view_data`, `_view_size`,
`_view_edge_color` and `_view_face_color`; in both cases the data columns
are reversed (`data[:, ::-1]`) before being handed to `set_data`. -/
def _on_data_change (layer : PointsLayerView) : SetDataArgs :=
  let edge_color :=
    if layer.indicesView.length > 0 then layer.viewEdgeColor
    else [[0, 0, 0, 1]]
  let face_color :=
    if layer.indicesView.length > 0 then layer.viewFaceColor
    else [[1, 1, 1, 1]]
  let ds :=
    if layer.indicesView.length == 0 then
      ([List.replicate layer.ndisplay (0 : ℚ)], [(0 : ℚ)])
    else (layer.viewData, layer.viewSize)
  { data := ds.1.map List.reverse
    size := ds.2
    edgeWidth := layer.edgeWidth
    symbol := layer.symbol
    edgeColor := edge_color
    faceColor := face_color
    scaling := true }

/-- The interaction mode of a `Points` layer, restricted to the modes the
mouse-binding tests exercise. -/
inductive PointsMode where
  | pan_zoom
  | add
  | select

/-- A `Points` layer as the mouse bindings see it: its point coordinates,
its selection set and its mode. -/
structure PointsModel where
  data : List (List ℚ)
  selected : List Nat
  mode : PointsMode

/-- A vispy mouse event as simulated by the tests: a world-coordinate
position. -/
structure MouseEvent where
  position : List ℚ

/-- Modelled from the spec: the `Points` mouse bindings
(napari/layers/points/_points_mouse_bindings.py) are not part of the
excerpt.  Per the spec ("interactive editing behavior ... hit-testing,
selection-set mutation is simple set arithmetic") and the mouse-binding
tests: in `'add'` mode a press appends a point at the event position, in
`'select'` mode a press hit-tests and mutates the selection set, and in
`'pan_zoom'` mode no editing callback is registered so a press leaves the
layer unchanged. -/
def mouse_press_callbacks (layer : PointsModel) (e : MouseEvent) : PointsModel :=
  match layer.mode with
  | .pan_zoom => layer
  | .add => { layer with data := layer.data ++ [e.position] }
  | .select =>
    { layer with
      selected := (List.range layer.data.length).filter
        (fun i => layer.data.getD i [] == e.position) }

/-- Modelled from the spec: the release half of the `Points` mouse bindings
(not part of the excerpt).  Releasing ends a drag; in none of the modelled
modes does the release itself add points, and in `'pan_zoom'` mode it leaves
the layer unchanged. -/
def mouse_release_callbacks (layer : PointsModel) (_e : MouseEvent) : PointsModel :=
  match layer.mode with
  | .pan_zoom => layer
  | .add => layer
  | .select => layer

/-- Helper: `absPathArg` preserves the shape of the path, so
`isinstance(path, (tuple, list))` is unchanged by normalization. -/
theorem isMultiPath_absPathArg (env : ReadEnv) (path : PathArg) :
    isMultiPath (absPathArg env path) = isMultiPath path := by
  cases path <;> rfl

/-- C8: In `VispyPointsLayer._on_data_change`, for every layer state: if the
layer's `_indices_view` is empty the visual receives a single all-zero
coordinate of dimension `_ndisplay` with size `[0]`, edge color opaque black
`[[0,0,0,1]]` and face color opaque white `[[1,1,1,1]]`; otherwise it
receives the layer's `_view_data` with its columns reversed (`data[:, ::-1]`)
together with `_view_size`, `_view_edge_color` and `_view_face_color`. -/
theorem vispy_points_on_data_change (layer : PointsLayerView) :
    (layer.indicesView.length = 0 →
      _on_data_change layer =
        { data := [List.replicate layer.ndisplay 0]
          size := [0]
          edgeWidth := layer.edgeWidth
          symbol := layer.symbol
          edgeColor := [[0, 0, 0, 1]]
          faceColor := [[1, 1, 1, 1]]
          scaling := true }) ∧
    (layer.indicesView.length ≠ 0 →
      _on_data_change layer =
        { data := layer.viewData.map List.reverse
          size := layer.viewSize
          edgeWidth := layer.edgeWidth
          symbol := layer.symbol
          edgeColor := layer.viewEdgeColor
          faceColor := layer.viewFaceColor
          scaling := true }) := by
  constructor
  · intro h
    simp [_on_data_change, h, List.reverse_replicate]
  · intro h
    simp [_on_data_change, h, Nat.pos_of_ne_zero h]

/-- Witness for C8: both cases evaluated at concrete layers. -/
theorem vispy_points_on_data_change_witness :
    _on_data_change ⟨[], 2, [], [], [], [], 1, "disc"⟩ =
      ⟨[[0, 0]], [0], 1, "disc", [[0, 0, 0, 1]], [[1, 1, 1, 1]], true⟩ ∧
    _on_data_change ⟨[0], 2, [[1, 2]], [3], [[0, 1, 0, 1]], [[1, 0, 0, 1]], 1, "disc"⟩ =
      ⟨[[2, 1]], [3], 1, "disc", [[0, 1, 0, 1]], [[1, 0, 0, 1]], true⟩ := by
  constructor
  · exact (vispy_points_on_data_change _).1 (by decide)
  · exact (vispy_points_on_data_change _).2 (by decide)

/-- C9: For a points layer in `'pan_zoom'` mode, dispatching a mouse-press
event followed by a mouse-release event through `mouse_press_callbacks` and
`mouse_release_callbacks` leaves both the layer's point data length and its
selection set unchanged: no point is added and none is selected. -/
theorem points_pan_zoom_press_release (layer : PointsModel)
    (e1 e2 : MouseEvent) (h : layer.mode = PointsMode.pan_zoom) :
    (mouse_release_callbacks (mouse_press_callbacks layer e1) e2).data.length =
      layer.data.length ∧
    (mouse_release_callbacks (mouse_press_callbacks layer e1) e2).selected =
      layer.selected := by
  simp [mouse_press_callbacks, mouse_release_callbacks, h]

/-- Witness for C9 at the 2D test fixture's data. -/
theorem points_pan_zoom_press_release_witness :
    (mouse_release_callbacks
      (mouse_press_callbacks
        ⟨[[1, 3], [8, 4], [10, 10], [15, 4]], [], PointsMode.pan_zoom⟩
        ⟨[0, 0]⟩) ⟨[0, 0]⟩).data.length = 4 ∧
    (mouse_release_callbacks
      (mouse_press_callbacks
        ⟨[[1, 3], [8, 4], [10, 10], [15, 4]], [], PointsMode.pan_zoom⟩
        ⟨[0, 0]⟩) ⟨[0, 0]⟩).selected = [] := by
  have h := points_pan_zoom_press_release
    ⟨[[1, 3], [8, 4], [10, 10], [15, 4]], [], PointsMode.pan_zoom⟩
    ⟨[0, 0]⟩ ⟨[0, 0]⟩ rfl
  exact ⟨h.1, h.2⟩

/-- C10: `save_layers` called with an empty list of layers invokes no writer
plugin (no events, independent of the environment), returns the empty list,
and emits the `'No data written!'` warning; and in general it warns exactly
when the list of written paths is empty. -/
theorem save_layers_empty_warns :
    (∀ (env : WriteEnv) (path : String) (plugin : Option String)
       (writer : Option NpeWriter),
       save_layers env path [] plugin writer = (.ok ([], true), [])) ∧
    (∀ (env : WriteEnv) (path : String) (layers : List Layer)
       (plugin : Option String) (writer : Option NpeWriter)
       (w : List String) (warned : Bool),
       (save_layers env path layers plugin writer).1 = .ok (w, warned) →
       (warned = true ↔ w = [])) := by
  constructor
  · intro env path plugin writer
    rfl
  · intro env path layers plugin writer w warned h
    rcases layers with _ | ⟨l1, _ | ⟨l2, rest⟩⟩
    · simp [save_layers] at h
      rcases h with ⟨h1, h2⟩
      subst h1; subst h2
      simp
    · simp only [save_layers] at h
      rcases hr : (_write_single_layer_with_plugins env path l1 plugin writer).1 with e | r
      · rw [hr] at h; simp [Except.map] at h
      · rw [hr] at h; simp [Except.map] at h
        rcases h with ⟨h1, h2⟩
        subst h1; subst h2
        simp [List.isEmpty_iff]
    · simp only [save_layers] at h
      rcases hr : (_write_multiple_layers_with_plugins env path (l1 :: l2 :: rest)
          plugin writer).1 with e | r
      · rw [hr] at h; simp at h
      · rw [hr] at h; simp at h
        rcases h with ⟨h1, h2⟩
        subst h1; subst h2
        simp [List.isEmpty_iff]

/-- Witness for C10: the general warning equivalence applied at a concrete
call (empty layer list, trivial environment). -/
theorem save_layers_empty_warns_witness :
    (true = true ↔ ([] : List String) = []) := by
  exact (save_layers_empty_warns.2
    ⟨false, fun _ => [], fun _ => Option.none, [],
     fun _ => Option.none, (Option.none, Option.none),
     fun _ _ => .ok Option.none⟩
    "a.txt" [] Option.none Option.none [] true rfl)

/-- C1: `read_data_with_plugins` first attempts the npe2 engine via
`_read_with_npe2`; when that attempt returns a result, the result is
returned at once (with the sentinel normalization) and no first-generation
event of any kind occurs; the first-generation `napari_get_reader` machinery
can only have been consulted when the npe2 attempt returned `None`, i.e.
when npe2 was missing or its reader resolution raised `ValueError`. -/
theorem read_npe2_first :
    (∀ (env : ReadEnv) (path : PathArg) (plugin : Option String)
       (ld : PyVal) (name : String),
       env.npe2 = NPE2ReadOutcome.okRead ld name →
       read_data_with_plugins env path plugin =
         (.ok (some (if _is_null_layer_sentinel ld then PyVal.list [] else ld),
               some name),
          [IOEvent.npe2Read])) ∧
    (∀ (env : ReadEnv) (path : PathArg) (plugin : Option String) (e : IOEvent),
       e ∈ (read_data_with_plugins env path plugin).2 →
       isFirstGenEvent e = true →
       env.npe2 = NPE2ReadOutcome.importErr ∨
       env.npe2 = NPE2ReadOutcome.valueErr) := by
  constructor
  · intro env path plugin ld name h
    simp [read_data_with_plugins, _read_with_npe2, h]
  · intro env path plugin e hmem hfg
    rcases hnpe2 : env.npe2 with _ | _ | exc | ⟨ld, name⟩
    · exact Or.inl rfl
    · exact Or.inr rfl
    · simp [read_data_with_plugins, _read_with_npe2, hnpe2] at hmem
      rw [hmem] at hfg
      simp [isFirstGenEvent] at hfg
    · simp [read_data_with_plugins, _read_with_npe2, hnpe2] at hmem
      rw [hmem] at hfg
      simp [isFirstGenEvent] at hfg

/-- Witness for C1: a concrete environment whose npe2 attempt succeeds. -/
theorem read_npe2_first_witness :
    read_data_with_plugins
      ⟨NPE2ReadOutcome.okRead (PyVal.list [PyVal.tuple [PyVal.int 7]]) "npe2plug",
       id, fun _ => Option.none, [], [], fun _ => CallPluginRes.notCallable⟩
      (PathArg.single "a.tif") Option.none =
      (.ok (some (PyVal.list [PyVal.tuple [PyVal.int 7]]), some "npe2plug"),
       [IOEvent.npe2Read]) := by
  exact read_npe2_first.1
    ⟨NPE2ReadOutcome.okRead (PyVal.list [PyVal.tuple [PyVal.int 7]]) "npe2plug",
     id, fun _ => Option.none, [], [], fun _ => CallPluginRes.notCallable⟩
    (PathArg.single "a.tif") Option.none
    (PyVal.list [PyVal.tuple [PyVal.int 7]]) "npe2plug" rfl

/-- C3: both `_write_multiple_layers_with_plugins` and
`_write_single_layer_with_plugins` first attempt `_write_layers_with_npe2`
and return its result whenever the returned list of written paths is
non-empty (the single-layer variant returning the first written path); the
first-generation engine is consulted only when the npe2 attempt writes
nothing; and when npe2 is not importable the npe2 helper returns the empty
list. -/
theorem write_npe2_first :
    (∀ (env : WriteEnv) (path : String) (layers : List Layer)
       (pn : Option String) (writer : Option NpeWriter)
       (w0 : String) (ws : List String),
       _write_layers_with_npe2 env pn writer = w0 :: ws →
       _write_multiple_layers_with_plugins env path layers pn writer =
         (.ok (w0 :: ws), [IOEvent.npe2Write]) ∧
       (∀ layer : Layer,
         _write_single_layer_with_plugins env path layer pn writer =
           (.ok (some w0), [IOEvent.npe2Write]))) ∧
    (∀ (env : WriteEnv) (pn : Option String) (writer : Option NpeWriter),
       env.npe2Importable = false →
       _write_layers_with_npe2 env pn writer = []) ∧
    (∀ (env : WriteEnv) (path : String) (layers : List Layer)
       (pn : Option String) (writer : Option NpeWriter) (e : IOEvent),
       e ∈ (_write_multiple_layers_with_plugins env path layers pn writer).2 →
       isFirstGenEvent e = true →
       _write_layers_with_npe2 env pn writer = []) ∧
    (∀ (env : WriteEnv) (path : String) (layer : Layer)
       (pn : Option String) (writer : Option NpeWriter) (e : IOEvent),
       e ∈ (_write_single_layer_with_plugins env path layer pn writer).2 →
       isFirstGenEvent e = true →
       _write_layers_with_npe2 env pn writer = []) := by
  refine ⟨?_, ?_, ?_, ?_⟩
  · intro env path layers pn writer w0 ws h
    constructor
    · simp [_write_multiple_layers_with_plugins, h]
    · intro layer
      simp [_write_single_layer_with_plugins, h]
  · intro env pn writer h
    simp [_write_layers_with_npe2, h]
  · intro env path layers pn writer e hmem hfg
    rcases hw : _write_layers_with_npe2 env pn writer with _ | ⟨w0, ws⟩
    · rfl
    · simp [_write_multiple_layers_with_plugins, hw] at hmem
      rw [hmem] at hfg
      simp [isFirstGenEvent] at hfg
  · intro env path layer pn writer e hmem hfg
    rcases hw : _write_layers_with_npe2 env pn writer with _ | ⟨w0, ws⟩
    · rfl
    · simp [_write_single_layer_with_plugins, hw] at hmem
      rw [hmem] at hfg
      simp [isFirstGenEvent] at hfg

/-- Witness for C3: a concrete environment in which npe2 writes one path,
and a concrete non-importable environment. -/
theorem write_npe2_first_witness :
    _write_multiple_layers_with_plugins
      ⟨true, fun _ => ["out.tif"], fun _ => Option.none, [],
       fun _ => Option.none, (Option.none, Option.none),
       fun _ _ => .ok Option.none⟩
      "out.tif" [⟨"image"⟩, ⟨"points"⟩] Option.none Option.none =
      (.ok ["out.tif"], [IOEvent.npe2Write]) ∧
    _write_layers_with_npe2
      ⟨false, fun _ => ["out.tif"], fun _ => Option.none, [],
       fun _ => Option.none, (Option.none, Option.none),
       fun _ _ => .ok Option.none⟩
      Option.none Option.none = [] := by
  constructor
  · exact (write_npe2_first.1
      ⟨true, fun _ => ["out.tif"], fun _ => Option.none, [],
       fun _ => Option.none, (Option.none, Option.none),
       fun _ _ => .ok Option.none⟩
      "out.tif" [⟨"image"⟩, ⟨"points"⟩] Option.none Option.none
      "out.tif" [] rfl).1
  · exact write_npe2_first.2.1
      ⟨false, fun _ => ["out.tif"], fun _ => Option.none, [],
       fun _ => Option.none, (Option.none, Option.none),
       fun _ _ => .ok Option.none⟩
      Option.none Option.none rfl

/-- Helper: the sentinel test recognises exactly the value `[(None,)]`. -/
theorem sentinel_iff (ld : PyVal) :
    _is_null_layer_sentinel ld = true ↔ ld = PyVal.list [PyVal.tuple [PyVal.none]] := by
  constructor
  · intro h
    unfold _is_null_layer_sentinel at h
    simp only [Bool.and_eq_true, beq_iff_eq] at h
    obtain ⟨⟨⟨⟨h1, h2⟩, h3⟩, h4⟩, h5⟩ := h
    cases ld with
    | list xs =>
      rcases xs with _ | ⟨x, _ | ⟨y, ys⟩⟩
      · simp [pyLen] at h2
      · cases x with
        | tuple ts =>
          rcases ts with _ | ⟨t, _ | ⟨u, us⟩⟩
          · simp [pyItem, pyLen] at h4
          · cases t with
            | none => rfl
            | bool b => simp [pyItem, isPyNone] at h5
            | int n => simp [pyItem, isPyNone] at h5
            | str s => simp [pyItem, isPyNone] at h5
            | list l => simp [pyItem, isPyNone] at h5
            | tuple l => simp [pyItem, isPyNone] at h5
          · simp [pyItem, pyLen] at h4
        | none => simp [pyItem, isPyTuple] at h3
        | bool b => simp [pyItem, isPyTuple] at h3
        | int n => simp [pyItem, isPyTuple] at h3
        | str s => simp [pyItem, isPyTuple] at h3
        | list l => simp [pyItem, isPyTuple] at h3
      · simp [pyLen] at h2
    | none => simp [isPyList] at h1
    | bool b => simp [isPyList] at h1
    | int n => simp [isPyList] at h1
    | str s => simp [isPyList] at h1
    | tuple t => simp [isPyList] at h1
  · intro h
    subst h
    rfl

/-- Helper: the sentinel value `[(None,)]` is truthy (a non-empty list). -/
theorem sentinel_truthy (ld : PyVal) (h : _is_null_layer_sentinel ld = true) :
    pyTruthy ld = true := by
  rw [sentinel_iff] at h
  subst h
  rfl

/-- C6: `_is_null_layer_sentinel(layer_data)` returns `True` iff
`layer_data` is a list of length exactly 1 whose sole element is a tuple of
length exactly 1 containing `None`; and in every reading path of
`read_data_with_plugins` (npe2 result, forced plugin, fallback loop), a
sentinel result is converted to the empty list in the returned pair. -/
theorem null_layer_sentinel_conversion :
    (∀ ld : PyVal,
       _is_null_layer_sentinel ld = true ↔
       ld = PyVal.list [PyVal.tuple [PyVal.none]]) ∧
    (∀ (env : ReadEnv) (path : PathArg) (plugin : Option String)
       (ld : PyVal) (name : String),
       env.npe2 = NPE2ReadOutcome.okRead ld name →
       _is_null_layer_sentinel ld = true →
       (read_data_with_plugins env path plugin).1 =
         .ok (some (PyVal.list []), some name)) ∧
    (∀ (env : ReadEnv) (p : String) (ld : PyVal),
       p ∈ env.plugins →
       env.callPlugin p = CallPluginRes.callableReader (.ok ld) →
       _is_null_layer_sentinel ld = true →
       (forcedReadBranch env p).1 = .ok (some (PyVal.list []), some p)) ∧
    (∀ (env : ReadEnv) (path1 : PathArg) (ld : PyVal),
       (fgLoop env.hookImpls).layerData = some ld →
       _is_null_layer_sentinel ld = true →
       (loopReadBranch env path1).1 =
         .ok (some (PyVal.list []), (fgLoop env.hookImpls).hookimpl)) := by
  refine ⟨sentinel_iff, ?_, ?_, ?_⟩
  · intro env path plugin ld name h hs
    simp [read_data_with_plugins, _read_with_npe2, h, hs]
  · intro env p ld hp hc hs
    simp [forcedReadBranch, hp, hc, hs]
  · intro env path1 ld hld hs
    simp [loopReadBranch, hld, pyFalsyOpt, sentinel_truthy ld hs, hs]

/-- Witness for C6: the sentinel equivalence and each conversion site, at
concrete inputs. -/
theorem null_layer_sentinel_conversion_witness :
    (_is_null_layer_sentinel (PyVal.list [PyVal.tuple [PyVal.none]]) = true ↔
      PyVal.list [PyVal.tuple [PyVal.none]] =
        PyVal.list [PyVal.tuple [PyVal.none]]) ∧
    (read_data_with_plugins
      ⟨NPE2ReadOutcome.okRead (PyVal.list [PyVal.tuple [PyVal.none]]) "n2",
       id, fun _ => Option.none, [], [], fun _ => CallPluginRes.notCallable⟩
      (PathArg.single "e.tif") Option.none).1 =
      .ok (some (PyVal.list []), some "n2") ∧
    (forcedReadBranch
      ⟨NPE2ReadOutcome.importErr, id, fun _ => Option.none, ["p1"], [],
       fun _ => CallPluginRes.callableReader
         (.ok (PyVal.list [PyVal.tuple [PyVal.none]]))⟩
      "p1").1 = .ok (some (PyVal.list []), some "p1") := by
  refine ⟨null_layer_sentinel_conversion.1 _, ?_, ?_⟩
  · exact null_layer_sentinel_conversion.2.1
      ⟨NPE2ReadOutcome.okRead (PyVal.list [PyVal.tuple [PyVal.none]]) "n2",
       id, fun _ => Option.none, [], [], fun _ => CallPluginRes.notCallable⟩
      (PathArg.single "e.tif") Option.none
      (PyVal.list [PyVal.tuple [PyVal.none]]) "n2" rfl rfl
  · exact null_layer_sentinel_conversion.2.2.1
      ⟨NPE2ReadOutcome.importErr, id, fun _ => Option.none, ["p1"], [],
       fun _ => CallPluginRes.callableReader
         (.ok (PyVal.list [PyVal.tuple [PyVal.none]]))⟩
      "p1" (PyVal.list [PyVal.tuple [PyVal.none]]) (by simp) rfl rfl

/-- C4: in both reading and writing, when no plugin name is supplied and the
path is a single string, the plugin to force is determined from the path's
extension — `os.path.splitext(path)[-1]` passed to
`get_reader_for_extension` for reads and to `get_writer_for_extension` for
writes — before any first-generation hook is called (the lookup event
precedes every first-generation event, and the subsequent branch is selected
by the lookup result). -/
theorem extension_assigns_plugin :
    (∀ (env : ReadEnv) (s : String),
       env.npe2 = NPE2ReadOutcome.importErr ∨
         env.npe2 = NPE2ReadOutcome.valueErr →
       read_data_with_plugins env (.single s) Option.none =
         (let ext := (splitext (env.abspath s)).2
          let branch :=
            match env.readerForExtension ext with
            | some p => forcedReadBranch env p
            | Option.none => loopReadBranch env (.single (env.abspath s))
          (branch.1, .npe2Read :: .extReaderLookup ext :: branch.2))) ∧
    (∀ (env : WriteEnv) (path : String) (layers : List Layer)
       (writer : Option NpeWriter),
       _write_layers_with_npe2 env Option.none writer = [] →
       _write_multiple_layers_with_plugins env path layers Option.none writer =
         (let ext := (splitext path).2
          let res : Except PyExc (List String) × List IOEvent :=
            match env.writerForExtension ext with
            | some p =>
              if p ∈ env.plugins then
                (writeCallTail (env.forcedWriter p) (some p) (some p),
                 [IOEvent.fgWriterHook])
              else (.error (.valueError (.noWriterPluginNamed p)), [])
            | Option.none =>
              (writeCallTail env.looseWriter.1 env.looseWriter.2 Option.none,
               [IOEvent.fgWriterHook])
          (res.1, .npe2Write :: .extWriterLookup ext :: res.2))) ∧
    (∀ (env : WriteEnv) (path : String) (layer : Layer)
       (writer : Option NpeWriter),
       _write_layers_with_npe2 env Option.none writer = [] →
       _write_single_layer_with_plugins env path layer Option.none writer =
         (let ext := (splitext path).2
          let res : Except PyExc (Option String) × List IOEvent :=
            match env.writerForExtension ext with
            | some p =>
              if p ∈ env.plugins then
                (env.singleHook layer.typeString (some p), [IOEvent.fgWriterHook])
              else (.error (.valueError (.noWriterPluginNamed p)), [])
            | Option.none =>
              (env.singleHook layer.typeString Option.none, [IOEvent.fgWriterHook])
          (res.1, .npe2Write :: .extWriterLookup ext :: res.2))) := by
  refine ⟨?_, ?_, ?_⟩
  · intro env s h
    rcases h with h | h <;>
      simp only [read_data_with_plugins, _read_with_npe2, h, resolveReadPlugin,
        absPathArg] <;>
      rcases hre : env.readerForExtension ((splitext (env.abspath s)).2) with
        _ | p <;>
      simp [hre]
  · intro env path layers writer hw
    simp only [_write_multiple_layers_with_plugins, hw, resolveWritePlugin]
    rcases hwe : env.writerForExtension ((splitext path).2) with _ | p <;>
      simp [hwe]
  · intro env path layer writer hw
    rw [_write_single_layer_with_plugins.eq_def]
    rw [hw]
    simp only [resolveWritePlugin]
    rcases hwe : env.writerForExtension ((splitext path).2) with _ | p <;>
      simp [hwe]

/-- Witness for C4: the three conjuncts applied at concrete environments and
paths, with the results fully evaluated. -/
theorem extension_assigns_plugin_witness :
    read_data_with_plugins
      ⟨NPE2ReadOutcome.importErr, id, fun _ => Option.none, [], [],
       fun _ => CallPluginRes.notCallable⟩
      (PathArg.single "a.tif") Option.none =
      (.error (.valueError (.noReaderFound false)),
       [IOEvent.npe2Read, IOEvent.extReaderLookup ".tif",
        IOEvent.fgReaderHookLoop]) ∧
    _write_multiple_layers_with_plugins
      ⟨false, fun _ => [], fun _ => Option.none, [],
       fun _ => Option.none, (some (.ok ["w.csv"]), some "impl"),
       fun _ _ => .ok Option.none⟩
      "w.csv" [⟨"image"⟩, ⟨"points"⟩] Option.none Option.none =
      (.ok ["w.csv"],
       [IOEvent.npe2Write, IOEvent.extWriterLookup ".csv",
        IOEvent.fgWriterHook]) ∧
    _write_single_layer_with_plugins
      ⟨false, fun _ => [], fun _ => Option.none, [],
       fun _ => Option.none, (Option.none, Option.none),
       fun _ _ => .ok (some "out.png")⟩
      "out.png" ⟨"image"⟩ Option.none Option.none =
      (.ok (some "out.png"),
       [IOEvent.npe2Write, IOEvent.extWriterLookup ".png",
        IOEvent.fgWriterHook]) := by
  refine ⟨?_, ?_, ?_⟩
  · rw [extension_assigns_plugin.1
      ⟨NPE2ReadOutcome.importErr, id, fun _ => Option.none, [], [],
       fun _ => CallPluginRes.notCallable⟩
      "a.tif" (Or.inl rfl)]
    rfl
  · rw [extension_assigns_plugin.2.1
      ⟨false, fun _ => [], fun _ => Option.none, [],
       fun _ => Option.none, (some (.ok ["w.csv"]), some "impl"),
       fun _ _ => .ok Option.none⟩
      "w.csv" [⟨"image"⟩, ⟨"points"⟩] Option.none rfl]
    rfl
  · rw [extension_assigns_plugin.2.2
      ⟨false, fun _ => [], fun _ => Option.none, [],
       fun _ => Option.none, (Option.none, Option.none),
       fun _ _ => .ok (some "out.png")⟩
      "out.png" ⟨"image"⟩ Option.none rfl]
    rfl

/-- Helper: a reader returned by the hook caller comes from one of the
registered implementations. -/
theorem findImpl_mem (impls : List FGImpl) (skip : List String)
    (n : String) (r : Except PyExc PyVal)
    (h : findImpl impls skip = some (n, r)) :
    ∃ i ∈ impls, i.name = n ∧ i.reader = some r := by
  induction impls with
  | nil => simp [findImpl] at h
  | cons impl rest ih =>
    rw [findImpl] at h
    by_cases hs : impl.name ∈ skip
    · rw [if_pos hs] at h
      obtain ⟨i, hi, hn, hr⟩ := ih h
      exact ⟨i, List.mem_cons_of_mem _ hi, hn, hr⟩
    · rw [if_neg hs] at h
      rcases hr : impl.reader with _ | r0
      · rw [hr] at h
        obtain ⟨i, hi, hn, hr2⟩ := ih h
        exact ⟨i, List.mem_cons_of_mem _ hi, hn, hr2⟩
      · rw [hr] at h
        simp at h
        exact ⟨impl, List.mem_cons_self _ _, h.1, by rw [hr, h.2]⟩

/-- Helper: if no registered reader ever returns truthy layer data, the
fallback loop's `layer_data` stays falsy. -/
theorem fgLoopGo_untruthy (impls : List FGImpl)
    (hno : ∀ i ∈ impls, ∀ ld : PyVal, i.reader = some (.ok ld) →
      pyTruthy ld = false) :
    ∀ (fuel : Nat) (s : FGState), pyFalsyOpt s.layerData = true →
      pyFalsyOpt ((fgLoopGo impls fuel s).layerData) = true := by
  intro fuel
  induction fuel with
  | zero => intro s hs; simpa [fgLoopGo] using hs
  | succ fuel ih =>
    intro s hs
    rw [fgLoopGo]
    rcases hf : findImpl impls s.skip with _ | ⟨n, r⟩
    · simpa using hs
    · rcases r with e | ld
      · exact ih _ hs
      · obtain ⟨i, hi, hn, hr⟩ := findImpl_mem impls s.skip n (.ok ld) hf
        have hld := hno i hi ld hr
        simp only [hld]
        exact ih _ (by simp [pyFalsyOpt, hld])

/-- Helper: a non-falsy optional layer data holds a truthy value. -/
theorem pyFalsyOpt_false (o : Option PyVal) (h : pyFalsyOpt o = false) :
    pyTruthy (o.getD PyVal.none) = true := by
  cases o with
  | none => simp [pyFalsyOpt] at h
  | some v => simpa [pyFalsyOpt] using h

/-- Helper: the fallback branch never returns `None` layer data inside a
successful result. -/
theorem loopReadBranch_no_none (env : ReadEnv) (path1 : PathArg)
    (hi : Option String) :
    (loopReadBranch env path1).1 ≠ .ok (Option.none, hi) := by
  unfold loopReadBranch
  rcases hfo : pyFalsyOpt ((fgLoop env.hookImpls).layerData) with _ | _
  · simp only [hfo, Bool.false_eq_true, if_false]
    split
    · simp
    · split
      · simp
      · rename_i hsen htr
        exact absurd (pyFalsyOpt_false _ hfo) htr
  · simp [hfo]

/-- C5: when the npe2 attempt yields nothing, no plugin is forced, and no
candidate reader in the first-generation loop returns truthy layer data,
`read_data_with_plugins` raises `ValueError` with the message distinguishing
list paths from single paths; and on that branch a `None`-layer-data return
without an exception is unreachable. -/
theorem read_raises_when_no_reader :
    (∀ (env : ReadEnv) (path : PathArg),
       env.npe2 = NPE2ReadOutcome.importErr ∨
         env.npe2 = NPE2ReadOutcome.valueErr →
       (resolveReadPlugin env (absPathArg env path) Option.none).1 =
         Option.none →
       (∀ i ∈ env.hookImpls, ∀ ld : PyVal, i.reader = some (.ok ld) →
         pyTruthy ld = false) →
       (read_data_with_plugins env path Option.none).1 =
         .error (.valueError (.noReaderFound (isMultiPath path)))) ∧
    (∀ (env : ReadEnv) (path : PathArg),
       env.npe2 = NPE2ReadOutcome.importErr ∨
         env.npe2 = NPE2ReadOutcome.valueErr →
       (resolveReadPlugin env (absPathArg env path) Option.none).1 =
         Option.none →
       ∀ (hi : Option String),
         (read_data_with_plugins env path Option.none).1 ≠
           .ok (Option.none, hi)) := by
  constructor
  · intro env path hnpe2 hres hno
    have hloop : pyFalsyOpt ((fgLoop env.hookImpls).layerData) = true :=
      fgLoopGo_untruthy env.hookImpls hno _ initFG rfl
    rcases hnpe2 with h | h <;>
      simp only [read_data_with_plugins, _read_with_npe2, h] <;>
      rw [hres] <;>
      simp [loopReadBranch, hloop, isMultiPath_absPathArg]
  · intro env path hnpe2 hres hi
    rcases hnpe2 with h | h <;>
      simp only [read_data_with_plugins, _read_with_npe2, h] <;>
      rw [hres] <;>
      exact loopReadBranch_no_none env _ hi

/-- Witness for C5: an environment with one reader plugin that returns falsy
layer data; the dispatch raises the single-path message. -/
theorem read_raises_when_no_reader_witness :
    (read_data_with_plugins
      ⟨NPE2ReadOutcome.valueErr, id, fun _ => Option.none, ["p1"],
       [⟨"p1", some (.ok (PyVal.list []))⟩],
       fun _ => CallPluginRes.notCallable⟩
      (PathArg.single "a.npy") Option.none).1 =
      .error (.valueError (.noReaderFound false)) := by
  exact read_raises_when_no_reader.1
    ⟨NPE2ReadOutcome.valueErr, id, fun _ => Option.none, ["p1"],
     [⟨"p1", some (.ok (PyVal.list []))⟩],
     fun _ => CallPluginRes.notCallable⟩
    (PathArg.single "a.npy") (Or.inr rfl) rfl
    (by
      intro i hi ld hld
      simp at hi
      rw [hi] at hld
      simp at hld
      rw [← hld]
      rfl)

/-- Helper: processing a non-empty declarative list is the head entry's
contribution prepended to the rest's. -/
theorem populate_menu_cons (a : MenuItemDict) (rest : List MenuItemDict) :
    populate_menu (a :: rest) =
      (populateItem a).bind (fun h => (populate_menu rest).map (fun t => h ++ t)) := by
  rw [populate_menu]
  rcases populateItem a with e | h
  · rfl
  · rcases populate_menu rest with e2 | t
    · rfl
    · rfl

/-- Helper: a falsy entry contributes a separator. -/
theorem populateItem_separator (ax : MenuItemDict) (h : ax.nonempty = false) :
    populateItem ax = .ok [MenuNode.separator] := by
  rcases ax with ⟨whenK, menuK, itemsP, items, textK, slotK, shortcutK,
    statusTipK, menuRoleK, checkableK, checkedK, checkOnK⟩
  rw [populateItem.eq_def]
  simp [h]

/-- Helper: an entry with a present falsy `'when'` contributes nothing. -/
theorem populateItem_when_falsy (ax : MenuItemDict) (h1 : ax.nonempty = true)
    (h2 : ax.whenFalsy = true) : populateItem ax = .ok [] := by
  rcases ax with ⟨whenK, menuK, itemsP, items, textK, slotK, shortcutK,
    statusTipK, menuRoleK, checkableK, checkedK, checkOnK⟩
  rw [populateItem.eq_def]
  rcases whenK with _ | w
  · simp [MenuItemDict.whenFalsy] at h2
  · simp [MenuItemDict.whenFalsy] at h2
    simp [h1, h2]

/-- Helper: an entry with a `'menu'` key contributes a populated submenu. -/
theorem populateItem_submenu (ax : MenuItemDict) (sub : SubVal)
    (h1 : ax.nonempty = true) (h2 : ax.whenFalsy = false)
    (h3 : ax.menuKey = some sub) :
    populateItem ax =
      (populate_menu ax.itemsKey).map (fun ch => [attachSub sub ch]) := by
  rcases ax with ⟨whenK, menuK, itemsP, items, textK, slotK, shortcutK,
    statusTipK, menuRoleK, checkableK, checkedK, checkOnK⟩
  rw [populateItem.eq_def]
  simp [MenuItemDict.menuKey] at h3
  subst h3
  rcases whenK with _ | w
  · simp [h1, MenuItemDict.itemsKey]
    rcases populate_menu (if itemsP then items else []) with e | ch <;> rfl
  · simp [MenuItemDict.whenFalsy] at h2
    simp [h1, h2, MenuItemDict.itemsKey]
    rcases populate_menu (if itemsP then items else []) with e | ch <;> rfl

/-- Helper: a remaining entry contributes one configured action titled by
its `'text'` key. -/
theorem populateItem_action (ax : MenuItemDict) (t : String)
    (h1 : ax.nonempty = true) (h2 : ax.whenFalsy = false)
    (h3 : ax.menuKey = Option.none) (h4 : ax.textKey = some t) :
    populateItem ax =
      .ok [MenuNode.action (mkActionNode ax t ax.slotKey ax.shortcutKey
            ax.statusTipKey ax.menuRoleKey ax.checkableKey ax.checkedKey
            ax.checkOnKey)] := by
  rcases ax with ⟨whenK, menuK, itemsP, items, textK, slotK, shortcutK,
    statusTipK, menuRoleK, checkableK, checkedK, checkOnK⟩
  rw [populateItem.eq_def]
  simp [MenuItemDict.menuKey] at h3
  simp [MenuItemDict.textKey] at h4
  subst h3
  subst h4
  rcases whenK with _ | w
  · simp [h1]
    rfl
  · simp [MenuItemDict.whenFalsy] at h2
    simp [h1, h2]
    rfl

/-- C7: `populate_menu` processes its declarative action list elementwise:
a falsy entry adds a separator; an entry whose `'when'` key is present and
falsy contributes nothing; an entry with a `'menu'` key attaches a submenu
(reusing a `QMenu` value or creating one from a string) recursively
populated from its `'items'` key, defaulting to the empty list; any other
entry adds a single action titled by its `'text'` key with the listed
optional keys applied. -/
theorem populate_menu_cases (ax : MenuItemDict) (rest : List MenuItemDict) :
    (ax.nonempty = false →
       populate_menu (ax :: rest) =
         (populate_menu rest).map (fun tl => MenuNode.separator :: tl)) ∧
    (ax.nonempty = true → ax.whenFalsy = true →
       populate_menu (ax :: rest) = populate_menu rest) ∧
    (∀ sub : SubVal,
       ax.nonempty = true → ax.whenFalsy = false → ax.menuKey = some sub →
       populate_menu (ax :: rest) =
         (populate_menu ax.itemsKey).bind
           (fun ch => (populate_menu rest).map
             (fun tl => attachSub sub ch :: tl))) ∧
    (∀ t : String,
       ax.nonempty = true → ax.whenFalsy = false →
       ax.menuKey = Option.none → ax.textKey = some t →
       populate_menu (ax :: rest) =
         (populate_menu rest).map (fun tl =>
           MenuNode.action (mkActionNode ax t ax.slotKey ax.shortcutKey
             ax.statusTipKey ax.menuRoleKey ax.checkableKey ax.checkedKey
             ax.checkOnKey) :: tl)) := by
  refine ⟨?_, ?_, ?_, ?_⟩
  · intro h
    rw [populate_menu_cons, populateItem_separator ax h]
    rcases populate_menu rest with e | t <;> rfl
  · intro h1 h2
    rw [populate_menu_cons, populateItem_when_falsy ax h1 h2]
    rcases populate_menu rest with e | t <;> rfl
  · intro sub h1 h2 h3
    rw [populate_menu_cons, populateItem_submenu ax sub h1 h2 h3]
    rcases populate_menu ax.itemsKey with e | ch
    · rfl
    · rcases populate_menu rest with e2 | t <;> rfl
  · intro t h1 h2 h3 h4
    rw [populate_menu_cons, populateItem_action ax t h1 h2 h3 h4]
    rcases populate_menu rest with e | tl <;> rfl

/-- Witness for C7: the separator, submenu and action cases evaluated on
concrete declarative entries. -/
theorem populate_menu_cases_witness :
    populate_menu
      [MenuItemDict.mk Option.none Option.none false [] Option.none
        Option.none Option.none Option.none Option.none Option.none
        Option.none Option.none] = .ok [MenuNode.separator] ∧
    populate_menu
      [MenuItemDict.mk Option.none (some (SubVal.title "File")) true
        [MenuItemDict.mk Option.none Option.none false [] Option.none
          Option.none Option.none Option.none Option.none Option.none
          Option.none Option.none]
        Option.none Option.none Option.none Option.none Option.none
        Option.none Option.none Option.none] =
      .ok [MenuNode.submenuNew "File" [MenuNode.separator]] ∧
    populate_menu
      [MenuItemDict.mk Option.none Option.none false [] (some "Open")
        (some 3) Option.none Option.none Option.none
        (some (PyVal.bool true)) (some (PyVal.bool true)) Option.none] =
      .ok [MenuNode.action
        ⟨"Open", some 3, "", "", Option.none, true, some true, Option.none,
         MenuItemDict.mk Option.none Option.none false [] (some "Open")
           (some 3) Option.none Option.none Option.none
           (some (PyVal.bool true)) (some (PyVal.bool true)) Option.none⟩] := by
  have h0 : populate_menu
      [MenuItemDict.mk Option.none Option.none false [] Option.none
        Option.none Option.none Option.none Option.none Option.none
        Option.none Option.none] = .ok [MenuNode.separator] := by
    rw [(populate_menu_cases
      (MenuItemDict.mk Option.none Option.none false [] Option.none
        Option.none Option.none Option.none Option.none Option.none
        Option.none Option.none) []).1 rfl]
    simp [populate_menu, Except.map]
  refine ⟨h0, ?_, ?_⟩
  · rw [(populate_menu_cases
      (MenuItemDict.mk Option.none (some (SubVal.title "File")) true
        [MenuItemDict.mk Option.none Option.none false [] Option.none
          Option.none Option.none Option.none Option.none Option.none
          Option.none Option.none]
        Option.none Option.none Option.none Option.none Option.none
        Option.none Option.none Option.none) []).2.2.1
      (SubVal.title "File") rfl rfl rfl]
    have hik : (MenuItemDict.mk Option.none (some (SubVal.title "File")) true
        [MenuItemDict.mk Option.none Option.none false [] Option.none
          Option.none Option.none Option.none Option.none Option.none
          Option.none Option.none]
        Option.none Option.none Option.none Option.none Option.none
        Option.none Option.none Option.none).itemsKey =
        [MenuItemDict.mk Option.none Option.none false [] Option.none
          Option.none Option.none Option.none Option.none Option.none
          Option.none Option.none] := rfl
    rw [hik, h0]
    simp [populate_menu, Except.bind, Except.map, attachSub]
  · rw [(populate_menu_cases
      (MenuItemDict.mk Option.none Option.none false [] (some "Open")
        (some 3) Option.none Option.none Option.none
        (some (PyVal.bool true)) (some (PyVal.bool true)) Option.none) []).2.2.2
      "Open" rfl rfl rfl rfl]
    simp [populate_menu, Except.map]
    rfl

/-- Helper: the hook caller's choice is the first active (non-skipped,
reader-offering) implementation. -/
theorem findImpl_eq_firstActive (impls : List FGImpl) (skip : List String) :
    findImpl impls skip = firstActive (activeImpls impls skip) := by
  induction impls with
  | nil => rfl
  | cons impl rest ih =>
    rw [findImpl]
    by_cases h : impl.name ∈ skip
    · rw [if_pos h]
      rw [ih]
      congr 1
      simp [activeImpls, h]
    · rw [if_neg h]
      have hact : activeImpls (impl :: rest) skip =
          impl :: activeImpls rest skip := by
        simp [activeImpls, h]
      rw [hact]
      rcases hr : impl.reader with _ | r
      · rw [firstActive, hr]
        exact ih
      · rw [firstActive, hr]

/-- Helper: scanning implementations that all decline changes nothing. -/
theorem fgScanGo_all_none (l : List FGImpl) (s : FGState)
    (h : ∀ i ∈ l, i.reader = Option.none) : fgScanGo l s = s := by
  induction l with
  | nil => rfl
  | cons impl rest ih =>
    rw [fgScanGo, h impl (List.mem_cons_self _ _)]
    exact ih (fun i hi => h i (List.mem_cons_of_mem _ hi))

/-- Helper: a declining prefix contributes nothing to the scan. -/
theorem fgScanGo_none_prefix (pre l : List FGImpl) (s : FGState)
    (h : ∀ i ∈ pre, i.reader = Option.none) :
    fgScanGo (pre ++ l) s = fgScanGo l s := by
  induction pre with
  | nil => rfl
  | cons impl rest ih =>
    rw [List.cons_append, fgScanGo, h impl (List.mem_cons_self _ _)]
    exact ih (fun i hi => h i (List.mem_cons_of_mem _ hi))

/-- Helper: when no implementation is active, every reader declines. -/
theorem firstActive_none (l : List FGImpl) (h : firstActive l = Option.none) :
    ∀ i ∈ l, i.reader = Option.none := by
  induction l with
  | nil => intro i hi; simp at hi
  | cons impl rest ih =>
    rw [firstActive] at h
    intro i hi
    rcases hr : impl.reader with _ | r
    · rw [hr] at h
      rcases List.mem_cons.1 hi with rfl | hi2
      · exact hr
      · exact ih h i hi2
    · rw [hr] at h
      simp at h

/-- Helper: a found implementation splits the list into a declining prefix,
the implementation itself and a remainder. -/
theorem firstActive_some (l : List FGImpl) (n : String)
    (r : Except PyExc PyVal) (h : firstActive l = some (n, r)) :
    ∃ pre i post, l = pre ++ i :: post ∧
      (∀ j ∈ pre, j.reader = Option.none) ∧ i.name = n ∧ i.reader = some r := by
  induction l with
  | nil => simp [firstActive] at h
  | cons impl rest ih =>
    rw [firstActive] at h
    rcases hr : impl.reader with _ | r0
    · rw [hr] at h
      obtain ⟨pre, i, post, hl, hpre, hn, hir⟩ := ih h
      refine ⟨impl :: pre, i, post, by rw [hl, List.cons_append], ?_, hn, hir⟩
      intro j hj
      rcases List.mem_cons.1 hj with rfl | hj2
      · exact hr
      · exact hpre j hj2
    · rw [hr] at h
      simp at h
      exact ⟨[], impl, rest, rfl, by simp, h.1, by rw [hr, h.2]⟩

/-- Helper: growing `skip_impls` by one name filters that implementation out
of the active list. -/
theorem activeImpls_append_skip (impls : List FGImpl) (skip : List String)
    (n : String) :
    activeImpls impls (skip ++ [n]) =
      (activeImpls impls skip).filter (fun i => decide (¬ i.name = n)) := by
  simp only [activeImpls, List.filter_filter]
  apply List.filter_congr
  intro a _
  by_cases h1 : a.name ∈ skip <;> by_cases h2 : a.name = n <;>
    simp [List.mem_append, h1, h2]

/-- Helper: with distinct names, filtering out the middle implementation by
name leaves exactly the prefix and the remainder. -/
theorem filter_ne_middle (pre post : List FGImpl) (i : FGImpl)
    (hnd : ((pre ++ i :: post).map (fun j => j.name)).Nodup) :
    (pre ++ i :: post).filter (fun j => decide (¬ j.name = i.name)) =
      pre ++ post := by
  rw [List.map_append] at hnd
  obtain ⟨hnd1, hnd2, hdisj⟩ := List.nodup_append.1 hnd
  have hipost : i.name ∉ post.map (fun j => j.name) :=
    (List.nodup_cons.1 (by simpa using hnd2)).1
  rw [List.filter_append, List.filter_cons]
  have hi : (decide (¬ i.name = i.name)) = false := by simp
  rw [hi]
  have h1 : pre.filter (fun j => decide (¬ j.name = i.name)) = pre := by
    rw [List.filter_eq_self]
    intro j hj
    simp only [decide_eq_true_eq]
    intro heq
    exact hdisj (List.mem_map_of_mem _ hj) (by simp [heq])
  have h2 : post.filter (fun j => decide (¬ j.name = i.name)) = post := by
    rw [List.filter_eq_self]
    intro j hj
    simp only [decide_eq_true_eq]
    intro heq
    exact hipost (by
      rw [← heq]
      exact List.mem_map_of_mem _ hj)
  rw [h1, h2]
  simp

/-- Helper: the active implementations inherit name distinctness. -/
theorem activeImpls_names_nodup (impls : List FGImpl) (skip : List String)
    (hnd : (impls.map (fun i => i.name)).Nodup) :
    ((activeImpls impls skip).map (fun i => i.name)).Nodup :=
  ((List.filter_sublist _).map _).nodup hnd

/-- Helper (main bridge): from any reachable state, the skip-list-driven
loop computes exactly the sequential scan of the still-active
implementations, given enough fuel and distinct plugin names. -/
theorem fgLoopGo_eq_scan (impls : List FGImpl)
    (hnd : (impls.map (fun i => i.name)).Nodup) :
    ∀ (fuel : Nat) (s : FGState),
      (activeImpls impls s.skip).length < fuel →
      fgLoopGo impls fuel s = fgScanGo (activeImpls impls s.skip) s := by
  intro fuel
  induction fuel with
  | zero => intro s hlen; omega
  | succ fuel ih =>
    intro s hlen
    rw [fgLoopGo]
    rcases hf : findImpl impls s.skip with _ | ⟨n, r⟩
    · rw [findImpl_eq_firstActive] at hf
      exact (fgScanGo_all_none _ s (firstActive_none _ hf)).symm
    · rw [findImpl_eq_firstActive] at hf
      obtain ⟨pre, i, post, hl, hpre, hin, hir⟩ := firstActive_some _ _ _ hf
      have hnd2 : ((pre ++ i :: post).map (fun j => j.name)).Nodup := by
        rw [← hl]
        exact activeImpls_names_nodup impls s.skip hnd
      have hscan : fgScanGo (activeImpls impls s.skip) s =
          fgScanGo (i :: post) s := by
        rw [hl]
        exact fgScanGo_none_prefix pre _ s hpre
      have hactive : activeImpls impls (s.skip ++ [n]) = pre ++ post := by
        rw [activeImpls_append_skip, hl, ← hin]
        exact filter_ne_middle pre post i hnd2
      have hlen2 : (pre ++ post).length < fuel := by
        have hlen3 : (activeImpls impls s.skip).length =
            (pre ++ i :: post).length := by rw [hl]
        simp only [List.length_append, List.length_cons] at hlen3 hlen ⊢
        omega
      rcases r with e | ld
      · have hstep := ih
          ⟨s.errors ++ [(n, e)], s.skip ++ [n], s.layerData, s.hookimpl,
           s.trace ++ [n]⟩ (by simpa [hactive] using hlen2)
        rw [hscan, fgScanGo, hir, hin]
        dsimp only
        dsimp only at hstep
        rw [hstep, hactive]
        exact fgScanGo_none_prefix pre _ _ hpre
      · rw [hscan, fgScanGo, hir, hin]
        dsimp only
        by_cases ht : pyTruthy ld = true
        · simp only [ht, if_true]
        · simp only [ht, if_false]
          have hstep := ih
            ⟨s.errors, s.skip ++ [n], some ld, s.hookimpl, s.trace ++ [n]⟩
            (by simpa [hactive] using hlen2)
          dsimp only at hstep
          rw [hstep, hactive]
          exact fgScanGo_none_prefix pre _ _ hpre

theorem activeImpls_nil_skip (impls : List FGImpl) :
    activeImpls impls [] = impls := by
  simp [activeImpls]

/-- Helper: the scan's reader-invocation trace extends the incoming trace by
an order-preserving selection of the implementation names. -/
theorem fgScanGo_trace (l : List FGImpl) (s : FGState) :
    ∃ t, (fgScanGo l s).trace = s.trace ++ t ∧
      t.Sublist (l.map (fun i => i.name)) := by
  induction l generalizing s with
  | nil => exact ⟨[], by simp [fgScanGo], by simp⟩
  | cons impl rest ih =>
    rw [fgScanGo]
    rcases hr : impl.reader with _ | r
    · obtain ⟨t, ht, hsub⟩ := ih s
      exact ⟨t, ht, hsub.trans (List.sublist_cons_self _ _)⟩
    · rcases r with e | ld
      · obtain ⟨t, ht, hsub⟩ := ih
          ⟨s.errors ++ [(impl.name, e)], s.skip ++ [impl.name], s.layerData,
           s.hookimpl, s.trace ++ [impl.name]⟩
        refine ⟨impl.name :: t, ?_, List.cons_sublist_cons.2 hsub⟩
        dsimp only at ht
        rw [ht]
        simp
      · dsimp only
        by_cases htr : pyTruthy ld = true
        · rw [if_pos htr]
          exact ⟨[impl.name], by simp, by simp⟩
        · rw [if_neg htr]
          obtain ⟨t, ht, hsub⟩ := ih
            ⟨s.errors, s.skip ++ [impl.name], some ld, s.hookimpl,
             s.trace ++ [impl.name]⟩
          refine ⟨impl.name :: t, ?_, List.cons_sublist_cons.2 hsub⟩
          dsimp only at ht
          rw [ht]
          simp

/-- C2: in the unforced fallback loop of `read_data_with_plugins`, candidate
reader implementations are tried sequentially in hook-caller order; every
implementation whose reader raises has its failure wrapped as a
`PluginCallError` appended to the errors list and is appended to
`skip_impls`, never being invoked again in that call (the invocation trace
has no duplicates); and the loop stops at the first reader returning truthy
layer data: the loop equals the specification-side sequential scan. -/
theorem fallback_loop_eq_scan (impls : List FGImpl)
    (hnd : (impls.map (fun i => i.name)).Nodup) :
    fgLoop impls = fgScan impls ∧ (fgLoop impls).trace.Nodup := by
  have heq : fgLoop impls = fgScan impls := by
    rw [fgLoop, fgScan]
    have hb := fgLoopGo_eq_scan impls hnd (impls.length + 1) initFG
      (by simp [initFG, activeImpls_nil_skip])
    rw [hb]
    simp [initFG, activeImpls_nil_skip]
  refine ⟨heq, ?_⟩
  rw [heq]
  obtain ⟨t, ht, hsub⟩ := fgScanGo_trace impls initFG
  rw [fgScan, ht]
  simp only [initFG, List.nil_append]
  exact hsub.nodup hnd

/-- Witness for C2: the loop/scan equality and trace distinctness evaluated
on a concrete hook list exercising a raising reader, a declining hook, a
falsy reader and a truthy reader. -/
theorem fallback_loop_eq_scan_witness :
    fgLoop
      [⟨"a", some (.error (.otherExc 1))⟩, ⟨"b", Option.none⟩,
       ⟨"c", some (.ok (PyVal.list []))⟩,
       ⟨"d", some (.ok (PyVal.list [PyVal.tuple [PyVal.int 5]]))⟩,
       ⟨"e", some (.ok (PyVal.int 9))⟩] =
      ⟨[("a", .otherExc 1)], ["a", "c"],
       some (PyVal.list [PyVal.tuple [PyVal.int 5]]), some "d",
       ["a", "c", "d"]⟩ ∧
    (fgLoop
      [⟨"a", some (.error (.otherExc 1))⟩, ⟨"b", Option.none⟩,
       ⟨"c", some (.ok (PyVal.list []))⟩,
       ⟨"d", some (.ok (PyVal.list [PyVal.tuple [PyVal.int 5]]))⟩,
       ⟨"e", some (.ok (PyVal.int 9))⟩]).trace.Nodup := by
  have h := fallback_loop_eq_scan
    [⟨"a", some (.error (.otherExc 1))⟩, ⟨"b", Option.none⟩,
     ⟨"c", some (.ok (PyVal.list []))⟩,
     ⟨"d", some (.ok (PyVal.list [PyVal.tuple [PyVal.int 5]]))⟩,
     ⟨"e", some (.ok (PyVal.int 9))⟩] (by decide)
  refine ⟨?_, h.2⟩
  rw [h.1]
  rfl
